import Mathlib

/-!
Verification of the multi-participant scene orchestration engine of the
qny backend (`app/services/scene_service.py`, `app/routers/scene.py`,
`app/models/scene.py`), via a shallow embedding.

Modelling conventions:
* Database rows are Lean structures; the database is a record of lists,
  kept in insertion order.  SQLAlchemy `ORDER BY` queries are modelled
  with a stable merge sort on the ordering column.
* ORM relationship access (`session.template`, `participant.role`) is
  modelled as the foreign-key join: the participant structure carries the
  joined role name, and the template is looked up by `template_id`.
* The external LLM call `generate_reply` is an oracle parameter of type
  `Reply := Nat → String → Except Unit String`; `Except.error` models the
  call raising an exception.
* `random.random() < 0.3` and `random.choice` are modelled by an explicit
  `RandSrc` record (a coin and an index source), threaded as a parameter.
* A SQLAlchemy transaction: `db.add` only stages a row; rows become part
  of the database at `db.commit()`.  An exception raised before a commit
  leaves the database at the last committed state (the pending rows are
  discarded when the request-scoped session is rolled back / closed).
* Timestamps (`datetime.utcnow()`) are `Nat` ticks supplied by the caller.
* Inert JSON payload fields that no modelled code path reads
  (`description`, `config` of the session, `personality_config`,
  `context` blobs on stored messages, `message_type`) are omitted.
-/

namespace Qny

/-- Enumeration `SceneStatus` of `app/models/scene.py`. -/
inductive SceneStatus
  | active
  | paused
  | ended
  | archived
deriving DecidableEq, Repr

/-- Enumeration `ParticipantType` of `app/schemas/scene.py` (values "ai"/"user"). -/
inductive ParticipantType
  | ai
  | user
deriving DecidableEq, Repr

/-- Row of `scene_templates`; `responseStrategy` models
`template.config.get('response_strategy', ...)` — `none` when the key (or the
whole config) is absent. -/
structure SceneTemplate where
  id : Nat
  maxRoles : Nat
  minRoles : Nat
  isActive : Bool
  responseStrategy : Option String
deriving DecidableEq, Repr

/-- Row of `scene_sessions`. -/
structure SceneSession where
  id : Nat
  userId : Nat
  templateId : Nat
  name : String
  status : SceneStatus
  currentSpeaker : Option Nat
  messageCount : Nat
  updatedAt : Nat
  endedAt : Option Nat
deriving DecidableEq, Repr

/-- Row of `scene_participants`; `roleName` is the joined `role.name`
(`participant.role.name` through the `role_id` foreign key). -/
structure SceneParticipant where
  id : Nat
  sessionId : Nat
  roleId : Nat
  roleName : String
  participantType : ParticipantType
  joinOrder : Nat
  isActive : Bool
  speakCount : Nat
  lastSpeakAt : Option Nat
deriving DecidableEq, Repr

instance : Inhabited SceneParticipant :=
  ⟨⟨0, 0, 0, "", ParticipantType.ai, 0, true, 0, none⟩⟩

/-- Row of `scene_messages`.  `messageOrder` is the `message_order` column
(nullable, no default). -/
structure SceneMessage where
  id : Nat
  sessionId : Nat
  participantId : Nat
  roleId : Nat
  content : String
  messageOrder : Option Nat
deriving DecidableEq, Repr

/-- Oracle for the external `generate_reply(messages, role_id, db)` call:
given the role id and the single user-turn prompt, either a reply text or a
raised exception. -/
def Reply : Type := Nat → String → Except Unit String

/-- Explicit source of randomness: `styleCoin` models `random.random() < 0.3`,
`pick` feeds each `random.choice` (index modulo the list length). -/
structure RandSrc where
  styleCoin : Bool
  pick : Nat
deriving DecidableEq, Repr

/-- One entry of `ROLE_INTERACTION_STYLES` (`app/scene_templates.py`): only the
`interaction_patterns` list is read by the service. -/
structure StyleConfig where
  interactionPatterns : List String
deriving DecidableEq, Repr

/-- `ROLE_INTERACTION_STYLES.get(role.name, {})`, `none` when absent (the
empty dict is falsy, so absence and emptiness coincide). -/
def roleInteractionStyles : String → Option StyleConfig
  | "苏格拉底" => some ⟨["你的观点是基于什么假设？", "你能举一个具体的例子吗？", "这个想法会导致什么结果？"]⟩
  | "爱因斯坦" => some ⟨["想象一下，如果...", "从另一个角度来看...", "这个问题让我想到了..."]⟩
  | "哈利波特" => some ⟨["我在霍格沃茨学到了...", "让我告诉你一个有趣的故事...", "你也来试试看！"]⟩
  | "夏洛克·福尔摩斯" => some ⟨["从现有的证据来看...", "我们需要考虑所有的可能性", "这个线索告诉我们..."]⟩
  | "心理咨询师" => some ⟨["我能理解你的感受...", "你已经在努力了，这很棒", "我们可以一起找到解决方法"]⟩
  | _ => none

/-- `SceneService._apply_interaction_style`. -/
def applyInteractionStyle (rand : RandSrc) (response : String) (cfg : StyleConfig) : String :=
  let patterns := cfg.interactionPatterns
  if !patterns.isEmpty && rand.styleCoin then
    let pattern := patterns.getD (rand.pick % patterns.length) ""
    pattern ++ "\n\n" ++ response
  else
    response

/-- The `context` value attached to a generated response dict. -/
inductive RespMeta
  | sequentialMeta (speakerRotation : List Nat)
  | expertiseMeta (matchedKeyword : String)
  | collaborativeMeta (role : String)
deriving DecidableEq, Repr

/-- One generated AI response dict
(`{'participant_id': …, 'role_id': …, 'content': …, 'context': …}`). -/
structure AiResponse where
  participantId : Nat
  roleId : Nat
  content : String
  meta : RespMeta
deriving DecidableEq, Repr

/-- The `for i, participant in enumerate(ai_participants)` search-with-break of
`_generate_sequential_responses`: index of the first participant whose
`role_id` equals the hint, `none` when no participant matches. -/
def findRoleIndex (currentSpeaker : Nat) : List SceneParticipant → Option Nat
  | [] => none
  | q :: qs =>
    if q.roleId == currentSpeaker then some 0
    else (findRoleIndex currentSpeaker qs).map (fun i => i + 1)

/-- `SceneService._generate_sequential_responses`.  `ctxCurrentSpeaker` models
`context['current_speaker']` (`none` when the context or the key is absent);
the Python truthiness test `if current_speaker:` makes a present value `0`
behave like an absent hint. -/
def generateSequentialResponses (reply : Reply) (rand : RandSrc)
    (participants : List SceneParticipant) (userMessage : String)
    (ctxCurrentSpeaker : Option Nat) : Except Unit (List AiResponse) :=
  let aiParticipants := participants.filter (fun p => p.participantType == ParticipantType.ai)
  if aiParticipants.isEmpty then
    Except.ok []
  else
    let nextSpeaker : SceneParticipant :=
      match ctxCurrentSpeaker with
      | some currentSpeaker =>
        if currentSpeaker ≠ 0 then
          let currentIndex : Int :=
            match findRoleIndex currentSpeaker aiParticipants with
            | some i => (i : Int)
            | none => -1
          let nextIndex := ((currentIndex + 1) % (aiParticipants.length : Int)).toNat
          aiParticipants.getD nextIndex default
        else
          aiParticipants.getD 0 default
      | none => aiParticipants.getD 0 default
    match reply nextSpeaker.roleId userMessage with
    | Except.error e => Except.error e
    | Except.ok roleResponse =>
      let responseContent :=
        match roleInteractionStyles nextSpeaker.roleName with
        | some style => applyInteractionStyle rand roleResponse style
        | none => roleResponse
      Except.ok [⟨nextSpeaker.id, nextSpeaker.roleId, responseContent,
        RespMeta.sequentialMeta (aiParticipants.map (fun p => p.roleId))⟩]

/-- The `expertise_keywords` table of `_generate_expertise_responses`, in
Python dict insertion order. -/
def expertiseKeywords : List (String × List String) :=
  [("哲学", ["苏格拉底"]),
   ("科学", ["爱因斯坦"]),
   ("魔法", ["哈利波特"]),
   ("推理", ["夏洛克·福尔摩斯"]),
   ("心理", ["心理咨询师"]),
   ("编程", ["编程助手", "Python编程助手"]),
   ("前端", ["前端开发顾问"])]

/-- Python's `pat in s` substring test. -/
def strContains (s pat : String) : Bool :=
  (s.splitOn pat).length > 1

/-- The keyword-matching double loop of `_generate_expertise_responses`:
first keyword contained in the message whose role-name list matches some
participant (the outer loop keeps scanning keywords while no participant
matched). -/
def findExpertiseMatch (participants : List SceneParticipant)
    (userMessage : String) : Option SceneParticipant :=
  expertiseKeywords.foldl
    (fun acc kw =>
      match acc with
      | some _ => acc
      | none =>
        if strContains userMessage kw.1 then
          participants.find? (fun p => kw.2.contains p.roleName)
        else
          none)
    none

/-- `SceneService._generate_expertise_responses` (the unused `context`
parameter is dropped). -/
def generateExpertiseResponses (reply : Reply) (rand : RandSrc)
    (participants : List SceneParticipant) (userMessage : String) :
    Except Unit (List AiResponse) :=
  let bestRole : Option SceneParticipant :=
    match findExpertiseMatch participants userMessage with
    | some p => some p
    | none =>
      let aiParticipants := participants.filter (fun p => p.participantType == ParticipantType.ai)
      if aiParticipants.isEmpty then
        none
      else
        some (aiParticipants.getD (rand.pick % aiParticipants.length) default)
  match bestRole with
  | none => Except.ok []
  | some best =>
    match reply best.roleId userMessage with
    | Except.error e => Except.error e
    | Except.ok r =>
      Except.ok [⟨best.id, best.roleId, r, RespMeta.expertiseMeta "keyword"⟩]

/-- The synthesized follow-up prompt of `_generate_collaborative_responses`
(`f"对于用户的问题'{user_message}'，前面已经回复了'{first_response}'，请你补充一些观点。"`). -/
def followUpPrompt (userMessage firstResponse : String) : String :=
  "对于用户的问题\x27" ++ userMessage ++ "\x27，前面已经回复了\x27" ++
    firstResponse ++ "\x27，请你补充一些观点。"

/-- `SceneService._generate_collaborative_responses`. -/
def generateCollaborativeResponses (reply : Reply) (rand : RandSrc)
    (participants : List SceneParticipant) (userMessage : String)
    (ctxCurrentSpeaker : Option Nat) : Except Unit (List AiResponse) :=
  let aiParticipants := participants.filter (fun p => p.participantType == ParticipantType.ai)
  if aiParticipants.length < 2 then
    generateSequentialResponses reply rand participants userMessage ctxCurrentSpeaker
  else
    let selected := aiParticipants.take 2
    let firstSel := selected.getD 0 default
    let secondSel := selected.getD 1 default
    match reply firstSel.roleId userMessage with
    | Except.error e => Except.error e
    | Except.ok firstResponse =>
      match reply secondSel.roleId (followUpPrompt userMessage firstResponse) with
      | Except.error e => Except.error e
      | Except.ok secondResponse =>
        Except.ok
          [⟨firstSel.id, firstSel.roleId, firstResponse, RespMeta.collaborativeMeta "primary"⟩,
           ⟨secondSel.id, secondSel.roleId, secondResponse, RespMeta.collaborativeMeta "supplementary"⟩]

/-- `SceneService._generate_ai_responses`: string-keyed strategy dispatch with
default `'sequential'` when `response_strategy` is absent, and the
Sequential fallback on any unknown tag. -/
def generateAiResponses (reply : Reply) (rand : RandSrc)
    (templateResponseStrategy : Option String)
    (participants : List SceneParticipant) (userMessage : String)
    (ctxCurrentSpeaker : Option Nat) : Except Unit (List AiResponse) :=
  let strategyName := templateResponseStrategy.getD "sequential"
  if strategyName == "sequential" then
    generateSequentialResponses reply rand participants userMessage ctxCurrentSpeaker
  else if strategyName == "expertise_based" then
    generateExpertiseResponses reply rand participants userMessage
  else if strategyName == "collaborative" then
    generateCollaborativeResponses reply rand participants userMessage ctxCurrentSpeaker
  else
    generateSequentialResponses reply rand participants userMessage ctxCurrentSpeaker

/-! ## Database state and the service/router operations -/

/-- Stable insertion keeping existing elements with a strictly smaller key in
front; together with `sortByJoinOrder` this models SQL `ORDER BY join_order`
(stable with respect to insertion order). -/
def orderedInsertJoin (p : SceneParticipant) :
    List SceneParticipant → List SceneParticipant
  | [] => [p]
  | q :: qs =>
    if q.joinOrder < p.joinOrder then q :: orderedInsertJoin p qs
    else p :: q :: qs

/-- Stable sort by `join_order`, modelling `.order_by(SceneParticipant.join_order)`. -/
def sortByJoinOrder : List SceneParticipant → List SceneParticipant
  | [] => []
  | p :: ps => orderedInsertJoin p (sortByJoinOrder ps)

/-- The relational store: each table as a list in insertion order, plus the
autoincrement counters for the two tables whose fresh ids matter. -/
structure DB where
  sessions : List SceneSession
  participants : List SceneParticipant
  messages : List SceneMessage
  templates : List SceneTemplate
  roles : List (Nat × String)
  nextParticipantId : Nat
  nextMessageId : Nat
deriving DecidableEq, Repr

/-- `SceneService.get_session`. -/
def getSession (db : DB) (sessionId : Nat) : Option SceneSession :=
  db.sessions.find? (fun s => s.id == sessionId)

/-- `SceneService.get_active_participants`. -/
def getActiveParticipants (db : DB) (sessionId : Nat) : List SceneParticipant :=
  sortByJoinOrder (db.participants.filter
    (fun p => p.sessionId == sessionId && p.isActive))

/-- Write back a session row (SQLAlchemy mutates the attached object; the
commit makes the new field values durable). -/
def setSession (db : DB) (s : SceneSession) : DB :=
  { db with sessions := db.sessions.map (fun t => if t.id == s.id then s else t) }

/-- The distinct `ValueError`s raised by `SceneService.add_participant`. -/
inductive AddErr
  | sessionNotFound
  | roleNotFound
  | roleAlreadyJoined
  | maxRolesExceeded
deriving DecidableEq, Repr

/-- Payload of `SceneParticipantCreate` (the unread `personality_config`
blob is omitted). -/
structure SceneParticipantCreate where
  roleId : Nat
  participantType : ParticipantType
deriving DecidableEq, Repr

/-- `SceneService.add_participant`.  Note: `participant_count` is the count of
ALL participants of the session — the query has no `is_active` filter — and
the limit check fires when `count ≥ max_roles` and the template row exists. -/
def addParticipant (db : DB) (sessionId : Nat) (pd : SceneParticipantCreate) :
    DB × Except AddErr SceneParticipant :=
  match getSession db sessionId with
  | none => (db, Except.error AddErr.sessionNotFound)
  | some session =>
    match db.roles.find? (fun r => r.1 == pd.roleId) with
    | none => (db, Except.error AddErr.roleNotFound)
    | some role =>
      if (db.participants.find?
          (fun p => p.sessionId == sessionId && p.roleId == pd.roleId)).isSome then
        (db, Except.error AddErr.roleAlreadyJoined)
      else
        let participantCount :=
          (db.participants.filter (fun p => p.sessionId == sessionId)).length
        let template := db.templates.find? (fun t => t.id == session.templateId)
        let overLimit : Bool :=
          match template with
          | some tmpl => participantCount ≥ tmpl.maxRoles
          | none => false
        if overLimit then
          (db, Except.error AddErr.maxRolesExceeded)
        else
          let maxOrder :=
            ((db.participants.filter (fun p => p.sessionId == sessionId)).map
              (fun p => p.joinOrder)).foldl max 0
          let participant : SceneParticipant :=
            { id := db.nextParticipantId
              sessionId := sessionId
              roleId := pd.roleId
              roleName := role.2
              participantType := pd.participantType
              joinOrder := maxOrder + 1
              isActive := true
              speakCount := 0
              lastSpeakAt := none }
          ({ db with
              participants := db.participants ++ [participant]
              nextParticipantId := db.nextParticipantId + 1 },
           Except.ok participant)

/-- `SceneService.remove_participant`: soft removal (`is_active = False`). -/
def removeParticipant (db : DB) (participantId : Nat) : DB × Bool :=
  match db.participants.find? (fun p => p.id == participantId) with
  | some _ =>
    ({ db with
        participants := db.participants.map
          (fun p => if p.id == participantId then { p with isActive := false } else p) },
     true)
  | none => (db, false)

/-- `SceneService.end_session`: any existing session is set to `ENDED` with
`ended_at = now`; only a missing session yields `false`. -/
def endSession (db : DB) (now : Nat) (sessionId : Nat) : DB × Bool :=
  match getSession db sessionId with
  | some session =>
    (setSession db { session with status := SceneStatus.ended, endedAt := some now },
     true)
  | none => (db, false)

/-- Payload of `SceneSessionUpdate` as used by the PUT router (fields left
`none` model "unset", skipped by `dict(exclude_unset=True)`; `description`
and `config` are inert payload and omitted). -/
structure SceneSessionUpdate where
  name : Option String
  status : Option SceneStatus
  currentSpeaker : Option Nat
deriving DecidableEq, Repr

/-- Router `update_session` (`PUT /scene/sessions/{session_id}`): finds the
caller's session and copies every supplied field onto it verbatim — there is
no status-transition validation. -/
def updateSessionEndpoint (db : DB) (userId sessionId : Nat)
    (upd : SceneSessionUpdate) : Except Unit DB :=
  match db.sessions.find? (fun s => s.id == sessionId && s.userId == userId) with
  | none => Except.error ()
  | some session =>
    let s1 :=
      match upd.name with
      | some n => { session with name := n }
      | none => session
    let s2 :=
      match upd.status with
      | some st => { s1 with status := st }
      | none => s1
    let s3 :=
      match upd.currentSpeaker with
      | some cs => { s2 with currentSpeaker := some cs }
      | none => s2
    Except.ok (setSession db s3)

/-- The `ValueError`s of `SceneService.send_message` plus the propagated
Responder failure. -/
inductive SendErr
  | noPermission
  | sessionNotActive
  | noActiveParticipants
  | upstream
deriving DecidableEq, Repr

/-- Payload of `SceneMessageRequest`; `ctxCurrentSpeaker` models
`context['current_speaker']` when the context dict carries that key. -/
structure SceneMessageRequest where
  sessionId : Nat
  content : String
  ctxCurrentSpeaker : Option Nat
deriving Repr

/-- `SceneService.send_message`.  Returns the committed database together
with either the list of saved AI messages or the raised error.  The user
message is only staged (`db.add`) before the Responder call; the single
commit for it happens after all AI replies are generated, so a Responder
failure leaves the database without it.  The auto-created user participant,
in contrast, is committed immediately upon creation. -/
def sendMessage (reply : Reply) (rand : RandSrc) (now : Nat)
    (db : DB) (userId : Nat) (req : SceneMessageRequest) :
    DB × Except SendErr (List SceneMessage) :=
  match getSession db req.sessionId with
  | none => (db, Except.error SendErr.noPermission)
  | some session =>
    if session.userId ≠ userId then
      (db, Except.error SendErr.noPermission)
    else if session.status ≠ SceneStatus.active then
      (db, Except.error SendErr.sessionNotActive)
    else
      let participants := getActiveParticipants db req.sessionId
      if participants.isEmpty then
        (db, Except.error SendErr.noActiveParticipants)
      else
        let found := db.participants.find?
          (fun p => p.sessionId == req.sessionId &&
            p.participantType == ParticipantType.user)
        let createdUser : SceneParticipant :=
          { id := db.nextParticipantId
            sessionId := req.sessionId
            roleId := 1
            roleName := ((db.roles.find? (fun r => r.1 == 1)).map
              (fun r => r.2)).getD ""
            participantType := ParticipantType.user
            joinOrder := 0
            isActive := true
            speakCount := 0
            lastSpeakAt := none }
        let db1 :=
          match found with
          | some _ => db
          | none =>
            { db with
                participants := db.participants ++ [createdUser]
                nextParticipantId := db.nextParticipantId + 1 }
        let userParticipant : SceneParticipant :=
          match found with
          | some p => p
          | none => createdUser
        let userMessage : SceneMessage :=
          { id := db1.nextMessageId
            sessionId := req.sessionId
            participantId := userParticipant.id
            roleId := userParticipant.roleId
            content := req.content
            messageOrder := none }
        let strategyTag :=
          (db1.templates.find? (fun t => t.id == session.templateId)).bind
            (fun t => t.responseStrategy)
        match generateAiResponses reply rand strategyTag participants
            req.content req.ctxCurrentSpeaker with
        | Except.error _ => (db1, Except.error SendErr.upstream)
        | Except.ok aiMessages =>
          let savedMessages := aiMessages.enum.map
            (fun ia =>
              { id := db1.nextMessageId + 1 + ia.1
                sessionId := req.sessionId
                participantId := ia.2.participantId
                roleId := ia.2.roleId
                content := ia.2.content
                messageOrder := none })
          let session1 :=
            { session with
                messageCount := session.messageCount + savedMessages.length + 1
                updatedAt := now
                currentSpeaker :=
                  match savedMessages.getLast? with
                  | some m => some m.roleId
                  | none => session.currentSpeaker }
          let db2 := setSession
            { db1 with
                messages := db1.messages ++ userMessage :: savedMessages
                nextMessageId := db1.nextMessageId + 1 + savedMessages.length }
            session1
          (db2, Except.ok savedMessages)

/-! ## General lemmas about the embedded operations -/

theorem getD_of_getQ (l : List SceneParticipant) (n : Nat) (x d : SceneParticipant)
    (h : l.get? n = some x) : l.getD n d = x := by
  unfold List.getD
  rw [h]
  rfl

theorem findRoleIndex_of_nodup (cs : Nat) (l : List SceneParticipant) (i : Nat)
    (p : SceneParticipant)
    (hnd : (l.map (fun q => q.roleId)).Nodup)
    (hp : l.get? i = some p) (hcs : p.roleId = cs) :
    findRoleIndex cs l = some i := by
  induction l generalizing i with
  | nil => simp at hp
  | cons a l ih =>
    simp only [List.map_cons, List.nodup_cons] at hnd
    cases i with
    | zero =>
      simp only [List.get?] at hp
      cases hp
      simp [findRoleIndex, hcs]
    | succ n =>
      simp only [List.get?] at hp
      have hmem : p ∈ l := List.get?_mem hp
      have hne : (a.roleId == cs) = false := by
        simp only [beq_eq_false_iff_ne]
        intro h
        exact hnd.1 (by
          rw [h, ← hcs]
          exact List.mem_map_of_mem (fun q => q.roleId) hmem)
      simp only [findRoleIndex, hne, Bool.false_eq_true, if_false]
      rw [ih n hnd.2 hp]
      rfl

theorem intModToNat (i len : Nat) :
    (((i : Int) + 1) % (len : Int)).toNat = (i + 1) % len := by
  have h1 : ((i : Int) + 1) = ((i + 1 : Nat) : Int) := by push_cast; ring
  rw [h1, ← Int.natCast_mod, Int.toNat_natCast]

/-! ## Fixtures for witnesses and counterexamples -/

/-- Oracle that always answers. -/
def wReplyOk : Reply := fun _ _ => Except.ok "好的"

/-- Oracle that always raises (a failing Responder). -/
def wReplyFail : Reply := fun _ _ => Except.error ()

def wRand : RandSrc := ⟨false, 0⟩

def wPartA : SceneParticipant := ⟨2, 1, 2, "角色A", ParticipantType.ai, 1, true, 0, none⟩

def wPartB : SceneParticipant := ⟨3, 1, 3, "角色B", ParticipantType.ai, 2, true, 0, none⟩

def wPartC : SceneParticipant := ⟨4, 1, 4, "角色C", ParticipantType.ai, 3, true, 0, none⟩

def wParts : List SceneParticipant := [wPartA, wPartB, wPartC]

/-! ## Claim theorems -/

/-- Claim C10: for every strategy tag that is not `'expertise_based'` or
`'collaborative'` — in particular any unknown or misspelled tag, and the
absent `response_strategy` key — the turn scheduler's output is exactly the
Sequential strategy's output on the same inputs. -/
theorem c10_unknown_strategy_falls_back_to_sequential
    (reply : Reply) (rand : RandSrc) (tag : Option String)
    (participants : List SceneParticipant) (msg : String) (cs : Option Nat)
    (h1 : tag ≠ some "expertise_based") (h2 : tag ≠ some "collaborative") :
    generateAiResponses reply rand tag participants msg cs
      = generateSequentialResponses reply rand participants msg cs := by
  unfold generateAiResponses
  cases tag with
  | none => rfl
  | some t =>
    simp only [Option.getD]
    by_cases hseq : t = "sequential"
    · simp [hseq]
    · have h3 : t ≠ "expertise_based" := fun h => h1 (by rw [h])
      have h4 : t ≠ "collaborative" := fun h => h2 (by rw [h])
      simp [hseq, h3, h4]

/-- Witness for C10 at the misspelled tag `"sequental"`. -/
theorem c10_witness :
    generateAiResponses wReplyOk wRand (some "sequental") wParts "你好" none
      = generateSequentialResponses wReplyOk wRand wParts "你好" none :=
  c10_unknown_strategy_falls_back_to_sequential wReplyOk wRand (some "sequental")
    wParts "你好" none (by decide) (by decide)

/-- Claim C5: for the Sequential strategy over the active AI participants (in
their `joinOrder` list order, with pairwise-distinct role ids as enforced by
`(session_id, role_id)` uniqueness, and positive role ids as produced by the
autoincrement id column): when the `currentSpeaker` hint matches the AI
participant at position `i`, the participant at position `(i+1) mod N` — the
one immediately following, wrapping from last to first — is selected to
respond; with no hint, the first AI participant is selected. -/
theorem c5_sequential_round_robin
    (reply : Reply) (rand : RandSrc) (participants : List SceneParticipant)
    (msg : String) (cs i : Nat) (p : SceneParticipant)
    (aiP : List SceneParticipant)
    (hai : aiP = participants.filter (fun q => q.participantType == ParticipantType.ai))
    (hnodup : (aiP.map (fun q => q.roleId)).Nodup)
    (hp : aiP.get? i = some p)
    (hcs : p.roleId = cs) (hcs0 : cs ≠ 0) :
    (∀ next, aiP.get? ((i + 1) % aiP.length) = some next →
      ∀ resp, reply next.roleId msg = Except.ok resp →
      ∃ content, generateSequentialResponses reply rand participants msg (some cs)
        = Except.ok [⟨next.id, next.roleId, content,
            RespMeta.sequentialMeta (aiP.map (fun q => q.roleId))⟩]) ∧
    (∀ fst, aiP.get? 0 = some fst →
      ∀ resp, reply fst.roleId msg = Except.ok resp →
      ∃ content, generateSequentialResponses reply rand participants msg none
        = Except.ok [⟨fst.id, fst.roleId, content,
            RespMeta.sequentialMeta (aiP.map (fun q => q.roleId))⟩]) := by
  have hner : aiP.isEmpty = false := by
    cases h : aiP with
    | nil => rw [h] at hp; simp at hp
    | cons a l => rfl
  constructor
  · intro next hnext resp hresp
    refine ⟨(match roleInteractionStyles next.roleName with
             | some style => applyInteractionStyle rand resp style
             | none => resp), ?_⟩
    simp only [generateSequentialResponses, ← hai, hner, Bool.false_eq_true, if_false]
    rw [if_pos hcs0, findRoleIndex_of_nodup cs aiP i p hnodup hp hcs]
    simp only [intModToNat, getD_of_getQ aiP ((i + 1) % aiP.length) next default hnext,
      hresp]
  · intro fst hfst resp hresp
    refine ⟨(match roleInteractionStyles fst.roleName with
             | some style => applyInteractionStyle rand resp style
             | none => resp), ?_⟩
    simp only [generateSequentialResponses, ← hai, hner, Bool.false_eq_true, if_false]
    rw [getD_of_getQ aiP 0 fst default hfst]
    simp only [hresp]

/-- Witness for C5: ai participants with join orders `[1,2,3]` and role ids
`[2,3,4]`; the hint names role `3` (position 1), so role `4` (position 2)
responds. -/
theorem c5_witness :
    ∃ content, generateSequentialResponses wReplyOk wRand wParts "你好" (some 3)
      = Except.ok [⟨wPartC.id, wPartC.roleId, content,
          RespMeta.sequentialMeta (wParts.map (fun q => q.roleId))⟩] :=
  (c5_sequential_round_robin wReplyOk wRand wParts "你好" 3 1 wPartB wParts
    (by decide) (by decide) (by decide) (by decide) (by decide)).1
    wPartC (by decide) "好的" rfl

/-- Claim C8: the Collaborative strategy with fewer than two eligible (AI)
participants returns exactly the Sequential strategy's result on the same
inputs — in particular, with exactly one AI participant it selects that
single participant — and with two or more it selects the first two in list
(`joinOrder`) order, the first answering the raw user message, the second a
follow-up prompt embedding the first's answer. -/
theorem c8_collaborative_refines_sequential
    (reply : Reply) (rand : RandSrc) (participants : List SceneParticipant)
    (msg : String) (cs : Option Nat) (aiP : List SceneParticipant)
    (hai : aiP = participants.filter (fun q => q.participantType == ParticipantType.ai)) :
    (aiP.length < 2 →
      generateCollaborativeResponses reply rand participants msg cs
        = generateSequentialResponses reply rand participants msg cs) ∧
    (∀ p1 p2, aiP.get? 0 = some p1 → aiP.get? 1 = some p2 →
      ∀ r1, reply p1.roleId msg = Except.ok r1 →
      ∀ r2, reply p2.roleId (followUpPrompt msg r1) = Except.ok r2 →
      generateCollaborativeResponses reply rand participants msg cs
        = Except.ok [⟨p1.id, p1.roleId, r1, RespMeta.collaborativeMeta "primary"⟩,
            ⟨p2.id, p2.roleId, r2, RespMeta.collaborativeMeta "supplementary"⟩]) ∧
    (∀ p, aiP = [p] →
      ∀ r, reply p.roleId msg = Except.ok r →
      ∃ content, generateCollaborativeResponses reply rand participants msg cs
        = Except.ok [⟨p.id, p.roleId, content,
            RespMeta.sequentialMeta [p.roleId]⟩]) := by
  refine ⟨?_, ?_, ?_⟩
  · intro h
    simp only [generateCollaborativeResponses, ← hai, h, if_true]
  · intro p1 p2 h0 h1 r1 hr1 r2 hr2
    have hge : ¬ aiP.length < 2 := by
      have h2 : 1 < aiP.length := by
        cases h : aiP with
        | nil => rw [h] at h1; simp at h1
        | cons a l =>
          cases hl : l with
          | nil => rw [h, hl] at h1; simp at h1
          | cons b m => simp [h, hl, Nat.succ_lt_succ_iff]
      omega
    have ht0 : (aiP.take 2).get? 0 = some p1 := by
      rw [List.get?_take (by omega)]; exact h0
    have ht1 : (aiP.take 2).get? 1 = some p2 := by
      rw [List.get?_take (by omega)]; exact h1
    simp only [generateCollaborativeResponses, ← hai, hge, if_false,
      getD_of_getQ (aiP.take 2) 0 p1 default ht0,
      getD_of_getQ (aiP.take 2) 1 p2 default ht1, hr1, hr2]
  · intro p hp r hr
    refine ⟨(match roleInteractionStyles p.roleName with
             | some style => applyInteractionStyle rand r style
             | none => r), ?_⟩
    have hlt : aiP.length < 2 := by simp [hp]
    simp only [generateCollaborativeResponses, generateSequentialResponses, ← hai]
    rw [if_pos hlt, hp]
    simp only [List.isEmpty_cons, Bool.false_eq_true, if_false]
    cases cs with
    | none => simp [List.getD, hr]
    | some v =>
      by_cases hv : v = 0
      · simp [hv, List.getD, hr]
      · by_cases hm : (p.roleId == v) = true
        · simp [hv, findRoleIndex, hm, List.getD, hr]
        · simp [hv, findRoleIndex, hm, List.getD, hr]

/-- View of `Except` as a sum, to derive decidable equality. -/
def exceptToSum {ε α : Type} : Except ε α → ε ⊕ α
  | Except.error e => Sum.inl e
  | Except.ok a => Sum.inr a

instance {ε α : Type} [DecidableEq ε] [DecidableEq α] : DecidableEq (Except ε α) :=
  fun a b =>
    decidable_of_iff (exceptToSum a = exceptToSum b)
      (by cases a <;> cases b <;> simp [exceptToSum])

/-- Replacing every session with the id of `s'` and then looking the id up
returns `s'`, provided some session with that id was present. -/
theorem findReplaceSession (l : List SceneSession) (s' : SceneSession) (sid : Nat)
    (hid : s'.id = sid) (hex : ∃ t, t ∈ l ∧ t.id = sid) :
    (l.map (fun t => if t.id == s'.id then s' else t)).find? (fun t => t.id == sid)
      = some s' := by
  induction l with
  | nil => simp at hex
  | cons a l ih =>
    simp only [List.map_cons]
    by_cases ha : a.id = sid
    · rw [if_pos (by simp [hid, ha])]
      simp [List.find?, hid]
    · rw [if_neg (by simp only [beq_iff_eq, hid]; exact ha)]
      have hfa : (a.id == sid) = false := by simp [ha]
      simp only [List.find?, hfa]
      apply ih
      obtain ⟨t, htm, htid⟩ := hex
      rcases List.mem_cons.mp htm with h | h
      · exact absurd (h ▸ htid) ha
      · exact ⟨t, h, htid⟩

def wTmpl : SceneTemplate := ⟨1, 2, 2, true, some "sequential"⟩

def wSessionEnded : SceneSession :=
  ⟨1, 10, 1, "会话", SceneStatus.ended, none, 0, 0, some 3⟩

def wSessionActive : SceneSession :=
  ⟨1, 10, 1, "会话", SceneStatus.active, none, 0, 0, none⟩

def wDbEnded : DB := ⟨[wSessionEnded], [], [], [wTmpl], [(1, "用户")], 5, 1⟩

/-- An inactive (soft-removed) AI participant of session 1. -/
def wPartInactive : SceneParticipant :=
  ⟨3, 1, 3, "角色B", ParticipantType.ai, 2, false, 0, none⟩

def c6db : DB :=
  ⟨[wSessionActive], [wPartA, wPartInactive], [], [wTmpl],
   [(1, "用户"), (2, "角色A"), (3, "角色B"), (4, "角色C")], 6, 1⟩

/-- Counterexample to C3: `end_session` on a session whose status is already
`Ended` returns `true` (the claim demands `false`), and it overwrites
`ended_at` again. -/
theorem c3_counterexample :
    wSessionEnded.status = SceneStatus.ended ∧
    (endSession wDbEnded 7 1).2 = true ∧
    getSession (endSession wDbEnded 7 1).1 1
      = some { wSessionEnded with status := SceneStatus.ended, endedAt := some 7 } := by
  decide

/-- Claim C3 as amended: `end_session` returns `true` for every existing
session regardless of its current status, each time setting
`status = Ended` and `endedAt = now` (so two consecutive calls both return
`true`); it returns `false`, changing nothing, only when the session does
not exist. -/
theorem c3_end_session_not_idempotent
    (db : DB) (now now2 sid : Nat) (s : SceneSession)
    (hs : getSession db sid = some s) :
    (endSession db now sid).2 = true ∧
    getSession (endSession db now sid).1 sid
      = some { s with status := SceneStatus.ended, endedAt := some now } ∧
    (endSession (endSession db now sid).1 now2 sid).2 = true ∧
    (∀ db', getSession db' sid = none → endSession db' now2 sid = (db', false)) := by
  have hsid : s.id = sid := by
    have := List.find?_some hs
    simpa using this
  have hmem : s ∈ db.sessions := List.mem_of_find?_eq_some hs
  have hfind : getSession (endSession db now sid).1 sid
      = some { s with status := SceneStatus.ended, endedAt := some now } := by
    unfold endSession
    rw [hs]
    exact findReplaceSession db.sessions _ sid hsid ⟨s, hmem, hsid⟩
  have hend : ∀ (db'' : DB) (s'' : SceneSession), getSession db'' sid = some s'' →
      (endSession db'' now2 sid).2 = true := by
    intro db'' s'' h
    unfold endSession
    rw [h]
  refine ⟨?_, hfind, hend _ _ hfind, ?_⟩
  · unfold endSession
    rw [hs]
  · intro db' h
    unfold endSession
    rw [h]

/-- Witness for C3's amended theorem at a concrete already-ended session. -/
theorem c3_witness :
    (endSession wDbEnded 7 1).2 = true ∧
    getSession (endSession wDbEnded 7 1).1 1
      = some { wSessionEnded with status := SceneStatus.ended, endedAt := some 7 } ∧
    (endSession (endSession wDbEnded 7 1).1 9 1).2 = true ∧
    (∀ db', getSession db' 1 = none → endSession db' 9 1 = (db', false)) :=
  c3_end_session_not_idempotent wDbEnded 7 9 1 wSessionEnded (by decide)

/-- Counterexample to C4: the generic session-update endpoint moves a session
whose status is `Ended` straight back to `Active`. -/
theorem c4_counterexample :
    wSessionEnded.status = SceneStatus.ended ∧
    updateSessionEndpoint wDbEnded 10 1 ⟨none, some SceneStatus.active, none⟩
      = Except.ok { wDbEnded with
          sessions := [{ wSessionEnded with status := SceneStatus.active }] } := by
  decide

/-- Claim C4 as amended: the generic session-update endpoint copies any
requested status onto the caller's session with no transition validation,
so every status (in particular `Active`) is reachable from `Ended` or
`Archived` through one `update_session` call. -/
theorem c4_update_session_unrestricted
    (db : DB) (userId sid : Nat) (upd : SceneSessionUpdate)
    (s : SceneSession) (st : SceneStatus)
    (hs : db.sessions.find? (fun t => t.id == sid && t.userId == userId) = some s)
    (hst : upd.status = some st) :
    ∃ db', updateSessionEndpoint db userId sid upd = Except.ok db' ∧
      ∃ s', getSession db' sid = some s' ∧ s'.status = st := by
  have hsid : s.id = sid := by
    have := List.find?_some hs
    simp only [Bool.and_eq_true, beq_iff_eq] at this
    exact this.1
  have hmem : s ∈ db.sessions := List.mem_of_find?_eq_some hs
  obtain ⟨nm, stf, cs⟩ := upd
  simp only [SceneSessionUpdate.mk.injEq] at hst
  unfold updateSessionEndpoint
  rw [hs]
  cases hst
  cases nm <;> cases cs <;>
    exact ⟨_, rfl, _, findReplaceSession db.sessions _ sid hsid ⟨s, hmem, hsid⟩, rfl⟩

/-- Witness for C4's amended theorem: reactivating a concrete ended session. -/
theorem c4_witness :
    ∃ db', updateSessionEndpoint wDbEnded 10 1 ⟨none, some SceneStatus.active, none⟩
        = Except.ok db' ∧
      ∃ s', getSession db' 1 = some s' ∧ s'.status = SceneStatus.active :=
  c4_update_session_unrestricted wDbEnded 10 1 ⟨none, some SceneStatus.active, none⟩
    wSessionEnded SceneStatus.active (by decide) (by decide)

/-- Counterexample to C6: session 1 has one active participant while the
template's `max_roles` is 2, yet `add_participant` rejects a fresh role with
`MaxRolesExceeded`, because its count includes the soft-removed (inactive)
participant. -/
theorem c6_counterexample :
    (c6db.participants.filter (fun p => p.sessionId == 1 && p.isActive)).length
        < wTmpl.maxRoles ∧
    (addParticipant c6db 1 ⟨4, ParticipantType.ai⟩).2
      = Except.error AddErr.maxRolesExceeded := by
  decide

/-- Claim C6 as amended: with the session and role present, and the role not
yet joined, `add_participant` fails with `MaxRolesExceeded` exactly when the
count of ALL participants of the session — active or soft-removed, the
auto-created user participant included — is at least the template's
`max_roles` (and the template row exists); the active-participant count is
not what is compared. -/
theorem c6_max_roles_counts_inactive
    (db : DB) (sid : Nat) (pd : SceneParticipantCreate)
    (s : SceneSession) (r : Nat × String)
    (hs : getSession db sid = some s)
    (hr : db.roles.find? (fun x => x.1 == pd.roleId) = some r)
    (hdup : db.participants.find?
      (fun p => p.sessionId == sid && p.roleId == pd.roleId) = none) :
    (addParticipant db sid pd).2 = Except.error AddErr.maxRolesExceeded ↔
      ∃ tmpl, db.templates.find? (fun t => t.id == s.templateId) = some tmpl ∧
        tmpl.maxRoles ≤ (db.participants.filter (fun p => p.sessionId == sid)).length := by
  cases htm : db.templates.find? (fun t => t.id == s.templateId) with
  | none =>
    constructor
    · intro h
      unfold addParticipant at h
      simp [hs, hr, hdup, htm] at h
    · rintro ⟨tmpl, htmpl, -⟩
      exact Option.noConfusion htmpl
  | some tmpl =>
    by_cases hc : tmpl.maxRoles ≤ (db.participants.filter (fun p => p.sessionId == sid)).length
    · constructor
      · intro _
        exact ⟨tmpl, rfl, hc⟩
      · intro _
        unfold addParticipant
        simp [hs, hr, hdup, htm, hc]
    · constructor
      · intro h
        unfold addParticipant at h
        simp [hs, hr, hdup, htm, hc] at h
      · rintro ⟨tmpl', htmpl', hc'⟩
        injection htmpl' with he
        rw [← he] at hc'
        exact absurd hc' hc

/-- Witness for C6's amended theorem at the concrete database of the
counterexample: the total count (2) reaches `max_roles` (2), so the call
fails even though only one participant is active. -/
theorem c6_witness :
    (addParticipant c6db 1 ⟨4, ParticipantType.ai⟩).2
        = Except.error AddErr.maxRolesExceeded ↔
      ∃ tmpl, c6db.templates.find? (fun t => t.id == wSessionActive.templateId)
          = some tmpl ∧
        tmpl.maxRoles
          ≤ (c6db.participants.filter (fun p => p.sessionId == 1)).length :=
  c6_max_roles_counts_inactive c6db 1 ⟨4, ParticipantType.ai⟩ wSessionActive
    (4, "角色C") (by decide) (by decide) (by decide)

/-- Witness for C8 on three AI participants: the first two respond, the
second to the follow-up prompt built from the first's answer. -/
theorem c8_witness :
    generateCollaborativeResponses wReplyOk wRand wParts "问题" none
      = Except.ok [⟨wPartA.id, wPartA.roleId, "好的", RespMeta.collaborativeMeta "primary"⟩,
          ⟨wPartB.id, wPartB.roleId, "好的", RespMeta.collaborativeMeta "supplementary"⟩] :=
  (c8_collaborative_refines_sequential wReplyOk wRand wParts "问题" none wParts
    (by decide)).2.1 wPartA wPartB (by decide) (by decide) "好的" rfl "好的" rfl

/-- An AI participant that already occupies `role_id = 1` in session 1. -/
def wPartRoleOne : SceneParticipant :=
  ⟨5, 1, 1, "用户", ParticipantType.ai, 3, true, 0, none⟩

/-- Database with no USER-type participant whose session already holds
`max_roles` participants, one of them with `role_id = 1`. -/
def c9db : DB :=
  ⟨[wSessionActive], [wPartA, wPartRoleOne], [], [wTmpl],
   [(1, "用户"), (2, "角色A")], 6, 1⟩

/-- Database with one active AI participant and no messages. -/
def c1db : DB :=
  ⟨[wSessionActive], [wPartA], [], [wTmpl], [(1, "用户"), (2, "角色A")], 6, 1⟩

/-- Claim C9: on a send_message call for a session with no USER-type
participant, the service silently creates a human participant with
`join_order = 0` and the fixed `role_id = 1` — no `max_roles` check and no
`(session_id, role_id)` uniqueness check guards this creation (the theorem
needs no hypothesis about either) — and when a USER-type participant
already exists, none is created (it is reused). -/
theorem c9_auto_user_participant
    (reply : Reply) (rand : RandSrc) (now : Nat) (db : DB) (userId : Nat)
    (req : SceneMessageRequest) (s : SceneSession)
    (hs : getSession db req.sessionId = some s)
    (hu : s.userId = userId) (hst : s.status = SceneStatus.active)
    (hne : (getActiveParticipants db req.sessionId).isEmpty = false) :
    (db.participants.find? (fun p => p.sessionId == req.sessionId &&
        p.participantType == ParticipantType.user) = none →
      (sendMessage reply rand now db userId req).1.participants
        = db.participants ++
          [{ id := db.nextParticipantId, sessionId := req.sessionId, roleId := 1,
             roleName := ((db.roles.find? (fun r => r.1 == 1)).map (fun r => r.2)).getD "",
             participantType := ParticipantType.user, joinOrder := 0,
             isActive := true, speakCount := 0, lastSpeakAt := none }]) ∧
    (∀ p, db.participants.find? (fun p => p.sessionId == req.sessionId &&
        p.participantType == ParticipantType.user) = some p →
      (sendMessage reply rand now db userId req).1.participants = db.participants) := by
  constructor
  · intro hfound
    cases hg : generateAiResponses reply rand
        ((db.templates.find? (fun t => t.id == s.templateId)).bind
          (fun t => t.responseStrategy))
        (getActiveParticipants db req.sessionId) req.content req.ctxCurrentSpeaker with
    | error e =>
      simp [sendMessage, hs, hu, hst, hne, hfound, hg]
    | ok ai =>
      simp [sendMessage, setSession, hs, hu, hst, hne, hfound, hg]
  · intro p hfound
    cases hg : generateAiResponses reply rand
        ((db.templates.find? (fun t => t.id == s.templateId)).bind
          (fun t => t.responseStrategy))
        (getActiveParticipants db req.sessionId) req.content req.ctxCurrentSpeaker with
    | error e =>
      simp [sendMessage, hs, hu, hst, hne, hfound, hg]
    | ok ai =>
      simp [sendMessage, setSession, hs, hu, hst, hne, hfound, hg]

/-- Witness for C9: the session already holds `max_roles = 2` participants
and `role_id = 1` is already joined, yet the user participant (id 6,
`role_id = 1`, `join_order = 0`) is created anyway. -/
theorem c9_witness :
    ((sendMessage wReplyOk wRand 5 c9db 10 ⟨1, "你好", none⟩).1.participants
      = c9db.participants ++
        [{ id := 6, sessionId := 1, roleId := 1, roleName := "用户",
           participantType := ParticipantType.user, joinOrder := 0,
           isActive := true, speakCount := 0, lastSpeakAt := none }]) ∧
    (c9db.participants.filter (fun p => p.sessionId == 1)).length = wTmpl.maxRoles ∧
    (c9db.participants.filter
      (fun p => p.sessionId == 1 && p.roleId == 1)).length = 1 :=
  ⟨(c9_auto_user_participant wReplyOk wRand 5 c9db 10 ⟨1, "你好", none⟩
      wSessionActive (by decide) (by decide) (by decide) (by decide)).1 (by decide),
   by decide, by decide⟩

/-- Counterexample to C1: the session starts with an empty message log; the
Responder raises during the turn, the failure is surfaced — and the user's
incoming message is NOT in the committed message log afterwards (it is
lost, because its only commit would have happened after the Responder
call). -/
theorem c1_counterexample :
    c1db.messages = [] ∧
    (sendMessage wReplyFail wRand 5 c1db 10 ⟨1, "救命", none⟩).2
      = Except.error SendErr.upstream ∧
    (sendMessage wReplyFail wRand 5 c1db 10 ⟨1, "救命", none⟩).1.messages = [] := by
  decide

/-- Claim C1 as amended: the incoming user message is only staged
(`db.add`) before the Responder is invoked; the single commit covering it
runs after all AI replies are generated.  Hence when the Responder raises,
send_message surfaces the failure and the committed message log is exactly
what it was before the call — the user's own message is lost (only the
separately committed auto-created user participant may survive). -/
theorem c1_user_message_lost_on_responder_failure
    (reply : Reply) (rand : RandSrc) (now : Nat) (db : DB) (userId : Nat)
    (req : SceneMessageRequest) (s : SceneSession) (e : Unit)
    (hs : getSession db req.sessionId = some s)
    (hu : s.userId = userId) (hst : s.status = SceneStatus.active)
    (hne : (getActiveParticipants db req.sessionId).isEmpty = false)
    (hg : generateAiResponses reply rand
        ((db.templates.find? (fun t => t.id == s.templateId)).bind
          (fun t => t.responseStrategy))
        (getActiveParticipants db req.sessionId) req.content req.ctxCurrentSpeaker
      = Except.error e) :
    (sendMessage reply rand now db userId req).2 = Except.error SendErr.upstream ∧
    (sendMessage reply rand now db userId req).1.messages = db.messages := by
  cases hfound : db.participants.find? (fun p => p.sessionId == req.sessionId &&
      p.participantType == ParticipantType.user) with
  | none =>
    constructor <;> simp [sendMessage, hs, hu, hst, hne, hfound, hg]
  | some p =>
    constructor <;> simp [sendMessage, hs, hu, hst, hne, hfound, hg]

/-- Witness for C1's amended theorem at the concrete failing run. -/
theorem c1_witness :
    (sendMessage wReplyFail wRand 5 c1db 10 ⟨1, "救命", none⟩).2
        = Except.error SendErr.upstream ∧
    (sendMessage wReplyFail wRand 5 c1db 10 ⟨1, "救命", none⟩).1.messages
      = c1db.messages :=
  c1_user_message_lost_on_responder_failure wReplyFail wRand 5 c1db 10
    ⟨1, "救命", none⟩ wSessionActive () (by decide) (by decide) (by decide)
    (by decide) (by decide)

/-- Counterexample to C2: a successful turn persists two messages (the user
message and one AI reply), and their `message_order` column is NULL for
both — not the claimed sequence `1..N`. -/
theorem c2_counterexample :
    (sendMessage wReplyOk wRand 5 c1db 10 ⟨1, "你好", none⟩).1.messages.map
        (fun m => m.messageOrder) = [none, none] ∧
    ([none, none] : List (Option Nat)) ≠ [some 1, some 2] := by
  decide

/-- Claim C2 as amended: send_message never assigns `message_order` at all —
every message it persists (user and AI alike) carries a NULL
`message_order`, whatever scheduler strategy ran; the `1..N` numbering does
not exist.  (Message sequence is carried by insertion/`created_at` order
only.) -/
theorem c2_message_order_never_assigned
    (reply : Reply) (rand : RandSrc) (now : Nat) (db : DB) (userId : Nat)
    (req : SceneMessageRequest)
    (h : ∀ m ∈ db.messages, m.messageOrder = none) :
    ∀ m ∈ (sendMessage reply rand now db userId req).1.messages,
      m.messageOrder = none := by
  intro m hm
  unfold sendMessage at hm
  dsimp only at hm
  split at hm
  · exact h m hm
  · split at hm
    · exact h m hm
    · split at hm
      · exact h m hm
      · split at hm
        · exact h m hm
        · split at hm
          · split at hm
            · exact h m hm
            · exact h m hm
          · simp only [setSession] at hm
            rcases List.mem_append.mp hm with h1 | h2
            · split at h1
              · exact h m h1
              · exact h m h1
            · rcases List.mem_cons.mp h2 with h3 | h4
              · rw [h3]
              · obtain ⟨a, -, rfl⟩ := List.mem_map.mp h4
                rfl

/-- Witness for C2's amended theorem at a concrete successful turn: the
persisted AI reply of that turn carries a NULL `message_order`. -/
theorem c2_witness :
    (⟨2, 1, 2, 2, "好的", none⟩ : SceneMessage)
        ∈ (sendMessage wReplyOk wRand 5 c1db 10 ⟨1, "你好", none⟩).1.messages ∧
    (⟨2, 1, 2, 2, "好的", none⟩ : SceneMessage).messageOrder = none :=
  ⟨by decide,
   c2_message_order_never_assigned wReplyOk wRand 5 c1db 10 ⟨1, "你好", none⟩
     (by decide) ⟨2, 1, 2, 2, "好的", none⟩ (by decide)⟩

/-- Counterexample to C7: a successful turn in which participant 2 (role 2)
responds; `current_speaker` is updated, but every participant — the
responder included — still has `speak_count = 0` and `last_speak_at` NULL
afterwards (the claim demands an increment and a timestamp). -/
theorem c7_counterexample :
    (sendMessage wReplyOk wRand 5 c1db 10 ⟨1, "你好", none⟩).2
        = Except.ok [⟨2, 1, 2, 2, "好的", none⟩] ∧
    wPartA ∈ c1db.participants ∧ wPartA.id = 2 ∧ wPartA.speakCount = 0 ∧
    (∀ p ∈ (sendMessage wReplyOk wRand 5 c1db 10 ⟨1, "你好", none⟩).1.participants,
      p.speakCount = 0 ∧ p.lastSpeakAt = none) := by
  decide

/-- Claim C7 as amended: after every successful send_message turn that
produced at least one AI reply, the session's `current_speaker` equals the
last responding participant's `role_id`; but `speak_count` and
`last_speak_at` are never touched — every pre-existing participant row is
carried over verbatim, and the only possible new row (the auto-created user
participant) starts at `speak_count = 0`, `last_speak_at = NULL`. -/
theorem c7_current_speaker_updated_counters_untouched
    (reply : Reply) (rand : RandSrc) (now : Nat) (db : DB) (userId : Nat)
    (req : SceneMessageRequest) (msgs : List SceneMessage) (m : SceneMessage)
    (h : (sendMessage reply rand now db userId req).2 = Except.ok msgs)
    (hm : msgs.getLast? = some m) :
    (∃ s', getSession (sendMessage reply rand now db userId req).1 req.sessionId
        = some s' ∧ s'.currentSpeaker = some m.roleId) ∧
    (∃ extra, (sendMessage reply rand now db userId req).1.participants
        = db.participants ++ extra ∧
      ∀ q ∈ extra, q.speakCount = 0 ∧ q.lastSpeakAt = none) := by
  cases heqs : getSession db req.sessionId with
  | none => simp [sendMessage, heqs] at h
  | some session =>
    have hsid : session.id = req.sessionId := by
      have := List.find?_some heqs
      simpa using this
    have hmem : session ∈ db.sessions := List.mem_of_find?_eq_some heqs
    by_cases hu : session.userId = userId
    · by_cases hst : session.status = SceneStatus.active
      · cases hne : (getActiveParticipants db req.sessionId).isEmpty with
        | true => simp [sendMessage, heqs, hu, hst, hne] at h
        | false =>
          cases hfound : db.participants.find? (fun p =>
              p.sessionId == req.sessionId &&
              p.participantType == ParticipantType.user) with
          | none =>
            cases hg : generateAiResponses reply rand
                ((db.templates.find? (fun t => t.id == session.templateId)).bind
                  (fun t => t.responseStrategy))
                (getActiveParticipants db req.sessionId) req.content
                req.ctxCurrentSpeaker with
            | error e => simp [sendMessage, heqs, hu, hst, hne, hfound, hg] at h
            | ok ai =>
              simp [sendMessage, heqs, hu, hst, hne, hfound, hg] at h ⊢
              constructor
              · refine ⟨_, findReplaceSession db.sessions _ req.sessionId hsid
                  ⟨session, hmem, hsid⟩, ?_⟩
                have h2 : (List.map (fun ia =>
                    ({ id := db.nextMessageId + 1 + ia.1, sessionId := req.sessionId,
                       participantId := ia.2.participantId, roleId := ia.2.roleId,
                       content := ia.2.content, messageOrder := none } : SceneMessage))
                    ai.enum).getLast? = some m := by rw [h, hm]
                simp at h2
                obtain ⟨a, ha, hrec⟩ := h2
                rw [ha]
                simp [← hrec]
              · refine ⟨_, rfl, ?_⟩
                simp
          | some p =>
            cases hg : generateAiResponses reply rand
                ((db.templates.find? (fun t => t.id == session.templateId)).bind
                  (fun t => t.responseStrategy))
                (getActiveParticipants db req.sessionId) req.content
                req.ctxCurrentSpeaker with
            | error e => simp [sendMessage, heqs, hu, hst, hne, hfound, hg] at h
            | ok ai =>
              simp [sendMessage, heqs, hu, hst, hne, hfound, hg] at h ⊢
              constructor
              · refine ⟨_, findReplaceSession db.sessions _ req.sessionId hsid
                  ⟨session, hmem, hsid⟩, ?_⟩
                have h2 : (List.map (fun ia =>
                    ({ id := db.nextMessageId + 1 + ia.1, sessionId := req.sessionId,
                       participantId := ia.2.participantId, roleId := ia.2.roleId,
                       content := ia.2.content, messageOrder := none } : SceneMessage))
                    ai.enum).getLast? = some m := by rw [h, hm]
                simp at h2
                obtain ⟨a, ha, hrec⟩ := h2
                rw [ha]
                simp [← hrec]
              · exact ⟨[], (List.append_nil _).symm, by simp⟩
      · simp [sendMessage, heqs, hu, hst] at h
    · simp [sendMessage, heqs, hu] at h

/-- Witness for C7's amended theorem at the concrete successful turn. -/
theorem c7_witness :
    (∃ s', getSession (sendMessage wReplyOk wRand 5 c1db 10 ⟨1, "你好", none⟩).1 1
        = some s' ∧
      s'.currentSpeaker = some (⟨2, 1, 2, 2, "好的", none⟩ : SceneMessage).roleId) ∧
    (∃ extra, (sendMessage wReplyOk wRand 5 c1db 10 ⟨1, "你好", none⟩).1.participants
        = c1db.participants ++ extra ∧
      ∀ q ∈ extra, q.speakCount = 0 ∧ q.lastSpeakAt = none) :=
  c7_current_speaker_updated_counters_untouched wReplyOk wRand 5 c1db 10
    ⟨1, "你好", none⟩ [⟨2, 1, 2, 2, "好的", none⟩] ⟨2, 1, 2, 2, "好的", none⟩
    (by decide) (by decide)

end Qny
